import Mathlib

/-!
Verification of the Deo Web3 example client
(`src/examples/api/web3_examples.py`).

The file shallowly embeds the Python module:

* JSON values are the inductive `Json`.
* The HTTP transport (`requests.post` + `response.raise_for_status()` +
  `response.json()`) is abstracted as a function `Transport` from the sent
  payload to either a parsed JSON body (`TransportResult.ok`) or a failure
  cause string (`TransportResult.err`).  `requests` signals connection
  refusal, timeouts and (via `raise_for_status`) non-success HTTP statuses
  uniformly as a `requests.exceptions.RequestException`, which is what the
  `err` constructor stands for; the attached string is `str(e)`.
* Python's `dict.get` on a possibly-non-dict value is `pyDictGet`, returning
  `Except Unit` so that an `AttributeError` raised on a non-dict receiver is
  the `.error` case.
* `int(s, base)` and `hex(v)` from the Python standard library are modelled
  by `pyInt` and the body of `int_to_hex`, including sign handling, the
  optional `0x`/`0X` prefix in base 16, surrounding whitespace, and
  underscores between digits.
* Python float division in `wei_to_ether` is modelled as exact division in
  `ℚ`; at the value the specification quotes (`10^18 / 10^18`) IEEE double
  division is exact, so the models agree there.

Stateful methods of `DeoWeb3Client` thread an explicit `ClientState`
(the `request_id` counter) and also return the payload that was sent, which
is the client's observable network effect.
-/

namespace DeoWeb3

/-- A JSON value, as produced by `response.json()` and consumed by
`json=payload` in `requests.post`. -/
inductive Json where
  | null : Json
  | bool (b : Bool) : Json
  | num (n : Int) : Json
  | str (s : String) : Json
  | arr (elems : List Json) : Json
  | obj (fields : List (String × Json)) : Json

/-- The JSON-RPC request envelope built by `_make_request`:
`{"jsonrpc": "2.0", "method": method, "params": params, "id": self.request_id}`. -/
structure Payload where
  jsonrpc : String
  method : String
  params : List Json
  id : Nat

/-- Outcome of one HTTP POST: a parsed JSON body on transport-level success,
or the stringified cause of a `requests.exceptions.RequestException`
(connection refused, timeout, or a non-success HTTP status raised by
`response.raise_for_status()`). -/
inductive TransportResult where
  | ok (body : Json) : TransportResult
  | err (cause : String) : TransportResult

/-- The network, abstracted: what one POST of a given payload returns. -/
def Transport : Type := Payload → TransportResult

/-- The mutable state of a `DeoWeb3Client` instance: just the id counter. -/
structure ClientState where
  request_id : Nat

/-- The constructor `__init__` sets `self.request_id = 1`. -/
def newClient : ClientState := ⟨1⟩

/-- The method `_make_request` begins with `if params is None: params = []`;
`none` is Python's `None` for an omitted `params` argument. -/
def defaultParams : Option (List Json) → List Json
  | none => []
  | some ps => ps

/-- The request envelope sent for a given client state, method and
(already defaulted) parameter list. -/
def mkPayload (st : ClientState) (method : String) (params : List Json) : Payload :=
  ⟨"2.0", method, params, st.request_id⟩

/-- Embeds `DeoWeb3Client._make_request`: build the envelope with the current
`request_id`, increment the counter, POST, and return either the parsed
body or the locally synthesized `{"error": f"Request failed: {e}"}`.
The result triple is (sent payload, returned object, new client state);
the sent payload is the observable network effect. -/
def _make_request (t : Transport) (st : ClientState) (method : String)
    (params : Option (List Json)) : Payload × Json × ClientState :=
  let ps := defaultParams params
  let payload := mkPayload st method ps
  let st' : ClientState := ⟨st.request_id + 1⟩
  match t payload with
  | .ok body => (payload, body, st')
  | .err cause => (payload, Json.obj [("error", Json.str ("Request failed: " ++ cause))], st')

/-- First binding of a key in a JSON object's field list (Python dict lookup;
objects decoded from JSON have distinct keys). -/
def lookupField : List (String × Json) → String → Option Json
  | [], _ => none
  | (k, v) :: rest, key => if k = key then some v else lookupField rest key

/-- Python `x.get(key)` where `x` is expected to be a dict: returns
`none` for a missing key, and raises `AttributeError` (the `.error` case)
when `x` is not a dict at all. -/
def pyDictGet (j : Json) (key : String) : Except Unit (Option Json) :=
  match j with
  | .obj fields => .ok (lookupField fields key)
  | _ => .error ()

/-- The `result.get("result")` step shared by every convenience wrapper. -/
def getResult (j : Json) : Except Unit (Option Json) := pyDictGet j "result"

/-- Embeds `DeoWeb3Client.get_block_number`. -/
def get_block_number (t : Transport) (st : ClientState) :
    Except Unit (Option Json) × ClientState :=
  let r := _make_request t st "eth_blockNumber" none
  (getResult r.2.1, r.2.2)

/-- Embeds `DeoWeb3Client.get_balance`. -/
def get_balance (t : Transport) (st : ClientState) (address : String)
    (block_tag : String := "latest") : Except Unit (Option Json) × ClientState :=
  let r := _make_request t st "eth_getBalance" (some [Json.str address, Json.str block_tag])
  (getResult r.2.1, r.2.2)

/-- Embeds `DeoWeb3Client.get_block_by_number`. -/
def get_block_by_number (t : Transport) (st : ClientState) (block_number : String)
    (include_transactions : Bool := false) : Except Unit (Option Json) × ClientState :=
  let r := _make_request t st "eth_getBlockByNumber"
    (some [Json.str block_number, Json.bool include_transactions])
  (getResult r.2.1, r.2.2)

/-- Embeds `DeoWeb3Client.get_block_by_hash`. -/
def get_block_by_hash (t : Transport) (st : ClientState) (block_hash : String)
    (include_transactions : Bool := false) : Except Unit (Option Json) × ClientState :=
  let r := _make_request t st "eth_getBlockByHash"
    (some [Json.str block_hash, Json.bool include_transactions])
  (getResult r.2.1, r.2.2)

/-- Embeds `DeoWeb3Client.get_transaction_by_hash`. -/
def get_transaction_by_hash (t : Transport) (st : ClientState) (tx_hash : String) :
    Except Unit (Option Json) × ClientState :=
  let r := _make_request t st "eth_getTransactionByHash" (some [Json.str tx_hash])
  (getResult r.2.1, r.2.2)

/-- Embeds `DeoWeb3Client.get_transaction_receipt`. -/
def get_transaction_receipt (t : Transport) (st : ClientState) (tx_hash : String) :
    Except Unit (Option Json) × ClientState :=
  let r := _make_request t st "eth_getTransactionReceipt" (some [Json.str tx_hash])
  (getResult r.2.1, r.2.2)

/-- Embeds `DeoWeb3Client.call_contract`; the call object is an arbitrary JSON value,
unvalidated, exactly as in the source. -/
def call_contract (t : Transport) (st : ClientState) (call_object : Json)
    (block_tag : String := "latest") : Except Unit (Option Json) × ClientState :=
  let r := _make_request t st "eth_call" (some [call_object, Json.str block_tag])
  (getResult r.2.1, r.2.2)

/-- Embeds `DeoWeb3Client.send_raw_transaction`. -/
def send_raw_transaction (t : Transport) (st : ClientState) (raw_tx : String) :
    Except Unit (Option Json) × ClientState :=
  let r := _make_request t st "eth_sendRawTransaction" (some [Json.str raw_tx])
  (getResult r.2.1, r.2.2)

/-- Embeds `DeoWeb3Client.estimate_gas`. -/
def estimate_gas (t : Transport) (st : ClientState) (call_object : Json) :
    Except Unit (Option Json) × ClientState :=
  let r := _make_request t st "eth_estimateGas" (some [call_object])
  (getResult r.2.1, r.2.2)

/-- Embeds `DeoWeb3Client.get_gas_price`. -/
def get_gas_price (t : Transport) (st : ClientState) :
    Except Unit (Option Json) × ClientState :=
  let r := _make_request t st "eth_gasPrice" none
  (getResult r.2.1, r.2.2)

/-- Embeds `DeoWeb3Client.get_code`. -/
def get_code (t : Transport) (st : ClientState) (address : String)
    (block_tag : String := "latest") : Except Unit (Option Json) × ClientState :=
  let r := _make_request t st "eth_getCode" (some [Json.str address, Json.str block_tag])
  (getResult r.2.1, r.2.2)

/-- Embeds `DeoWeb3Client.get_storage_at`. -/
def get_storage_at (t : Transport) (st : ClientState) (address : String)
    (position : String) (block_tag : String := "latest") :
    Except Unit (Option Json) × ClientState :=
  let r := _make_request t st "eth_getStorageAt"
    (some [Json.str address, Json.str position, Json.str block_tag])
  (getResult r.2.1, r.2.2)

/-- Embeds `DeoWeb3Client.get_network_version`. -/
def get_network_version (t : Transport) (st : ClientState) :
    Except Unit (Option Json) × ClientState :=
  let r := _make_request t st "net_version" none
  (getResult r.2.1, r.2.2)

/-- Embeds `DeoWeb3Client.is_listening`. -/
def is_listening (t : Transport) (st : ClientState) :
    Except Unit (Option Json) × ClientState :=
  let r := _make_request t st "net_listening" none
  (getResult r.2.1, r.2.2)

/-- Embeds `DeoWeb3Client.get_peer_count`. -/
def get_peer_count (t : Transport) (st : ClientState) :
    Except Unit (Option Json) × ClientState :=
  let r := _make_request t st "net_peerCount" none
  (getResult r.2.1, r.2.2)

/-- Embeds `DeoWeb3Client.get_client_version`. -/
def get_client_version (t : Transport) (st : ClientState) :
    Except Unit (Option Json) × ClientState :=
  let r := _make_request t st "web3_clientVersion" none
  (getResult r.2.1, r.2.2)

/-! ## The pure conversion helpers and their Python-library dependencies -/

/-- Value of one character as a digit, as CPython assigns it:
`0`-`9` (code points 48-57), then `a`-`z` (97-122) and `A`-`Z` (65-90) as
10-35; whether a digit is admissible is a separate bound check against the
base. -/
def digitVal (c : Char) : Option Nat :=
  let n := c.toNat
  if 48 ≤ n ∧ n ≤ 57 then some (n - 48)
  else if 97 ≤ n ∧ n ≤ 122 then some (n - 87)
  else if 65 ≤ n ∧ n ≤ 90 then some (n - 55)
  else none

/-- Accumulate a digit string left to right; `none` when a character is not
a digit of the base. Underscores have been filtered out before this runs. -/
def digitsToNat (base : Nat) : Nat → List Char → Option Nat
  | acc, [] => some acc
  | acc, c :: rest =>
    match digitVal c with
    | some d => if d < base then digitsToNat base (acc * base + d) rest else none
    | none => none

/-- CPython rejects trailing and doubled underscores in numeric literals
(a leading one is rejected by the caller). -/
def underscoresBetween : List Char → Bool
  | [] => true
  | c :: rest =>
    if c = '_' then
      match rest with
      | [] => false
      | c2 :: _ => if c2 = '_' then false else underscoresBetween rest
    else underscoresBetween rest

/-- Digit-string part of `int(s, base)`: at least one digit, underscores only
strictly between digits, every digit below the base. -/
def parseDigits (base : Nat) (cs : List Char) : Option Nat :=
  match cs with
  | [] => none
  | c :: _ =>
    if c = '_' then none
    else if underscoresBetween cs then digitsToNat base 0 (cs.filter (fun a => a ≠ '_'))
    else none

/-- After a `0x`/`0X` prefix CPython additionally allows one underscore
before the first digit (`int("0x_10", 16) == 16`). -/
def parseAfterPfx (cs : List Char) : Option Nat :=
  match cs with
  | [] => none
  | c :: rest => if c = '_' then parseDigits 16 rest else parseDigits 16 cs

/-- The unsigned part of `int(s, base)`: in base 16 an optional `0x`/`0X`
prefix is stripped first. Only bases 10 and 16 are exercised by the module. -/
def parseBody (base : Nat) (cs : List Char) : Option Nat :=
  if base = 16 then
    match cs with
    | c0 :: c1 :: rest =>
      if c0 = '0' ∧ (c1 = 'x' ∨ c1 = 'X') then parseAfterPfx rest
      else parseDigits 16 cs
    | _ => parseDigits 16 cs
  else parseDigits base cs

/-- Optional sign in front of the unsigned body. -/
def pyIntCore (base : Nat) (cs : List Char) : Option Int :=
  match cs with
  | [] => none
  | c :: rest =>
    if c = '+' then (parseBody base rest).map (fun n => (n : Int))
    else if c = '-' then (parseBody base rest).map (fun n => -(n : Int))
    else (parseBody base cs).map (fun n => (n : Int))

/-- Python's `int(s, base)` strips surrounding whitespace before parsing. -/
def stripWs (cs : List Char) : List Char :=
  ((cs.dropWhile Char.isWhitespace).reverse.dropWhile Char.isWhitespace).reverse

/-- Python's built-in `int(s, base)`: `.error ()` is a raised `ValueError`. -/
def pyInt (s : String) (base : Nat) : Except Unit Int :=
  match pyIntCore base (stripWs s.data) with
  | some v => .ok v
  | none => .error ()

/-- Python's `s.startswith(pre)`. -/
def py_startswith (s pre : String) : Bool := pre.data.isPrefixOf s.data

/-- Embeds `hex_to_int` from the source: base 16 when the string starts with `0x`,
base 10 otherwise. -/
def hex_to_int (hex_str : String) : Except Unit Int :=
  if py_startswith hex_str "0x" then pyInt hex_str 16
  else pyInt hex_str 10

/-- Python's lowercase hexadecimal digit for `d < 16`. -/
def hexDigitChar (d : Nat) : Char :=
  if d < 10 then Char.ofNat ('0'.toNat + d) else Char.ofNat ('a'.toNat + d - 10)

/-- Repeated divide-by-16, most significant digit first; the fuel argument
makes the recursion structural and is always given as more than `n`. -/
def hexRepCore : Nat → Nat → List Char → List Char
  | 0, _, acc => acc
  | fuel + 1, n, acc =>
    if n = 0 then acc
    else hexRepCore fuel (n / 16) (hexDigitChar (n % 16) :: acc)

/-- The digit part of Python's `hex(n)` for `n ≥ 0` (`hex(0) == "0x0"`). -/
def hexDigitsOf (n : Nat) : List Char :=
  if h0 : n = 0 then ['0'] else hexRepCore (n + 1) n []

/-- Embeds `int_to_hex` from the source, i.e. Python's `hex(value)`:
`0x`-prefixed lowercase digits, with a leading `-` for negative input. -/
def int_to_hex (value : Int) : String :=
  if value < 0 then "-0x" ++ String.mk (hexDigitsOf value.natAbs)
  else "0x" ++ String.mk (hexDigitsOf value.toNat)

/-- Embeds `wei_to_ether` from the source: `hex_to_int(wei) / 10**18`. Python's
float division is modelled as exact division in `ℚ`; at the quoted input
(`10^18 / 10^18`) the IEEE double result is exactly `1.0` as well. -/
def wei_to_ether (wei : String) : Except Unit ℚ :=
  (hex_to_int wei).map (fun n => (n : ℚ) / 10 ^ 18)

/-- Whether a JSON value is an object (a Python dict after decoding). -/
def Json.isObj : Json → Bool
  | .obj _ => true
  | _ => false

/-- A sequence of `_make_request` calls on one client instance, returning the
payloads that went over the wire in order. Each list entry is the method and
the optional parameter list of one call. -/
def runCalls (t : Transport) : ClientState → List (String × Option (List Json)) → List Payload
  | _, [] => []
  | st, c :: rest =>
    let r := _make_request t st c.1 c.2
    r.1 :: runCalls t r.2.2 rest

/-- A lowercase hexadecimal digit character. -/
def isLowerHexDigit (c : Char) : Bool :=
  ('0' ≤ c && c ≤ '9') || ('a' ≤ c && c ≤ 'f')

/-- Every character of the list is an emitted lowercase hex digit. -/
def GoodHex (cs : List Char) : Prop :=
  ∀ c ∈ cs, ∃ d, d < 16 ∧ c = hexDigitChar d

/-! ## Helper lemmas -/

theorem hexDigitChar_facts : ∀ d, d < 16 →
    digitVal (hexDigitChar d) = some d ∧ (hexDigitChar d).isWhitespace = false ∧
    hexDigitChar d ≠ '_' ∧ isLowerHexDigit (hexDigitChar d) = true := by decide

theorem make_request_parts (t : Transport) (st : ClientState) (m : String)
    (ps : Option (List Json)) :
    (_make_request t st m ps).1 = mkPayload st m (defaultParams ps) ∧
    (_make_request t st m ps).2.2 = ⟨st.request_id + 1⟩ := by
  cases h : t (mkPayload st m (defaultParams ps)) <;> simp [_make_request, h]

theorem make_request_response_of (t : Transport) (st : ClientState) (m : String)
    (ps : Option (List Json)) (body : Json)
    (h : t (mkPayload st m (defaultParams ps)) = .ok body) :
    (_make_request t st m ps).2.1 = body := by
  simp [_make_request, h]

theorem getResult_obj (fields : List (String × Json)) :
    getResult (Json.obj fields) = .ok (lookupField fields "result") := rfl

theorem getResult_nonobj (body : Json) (h : body.isObj = false) :
    getResult body = .error () := by
  cases body <;> first
    | rfl
    | simp [Json.isObj] at h

theorem dropWhile_eq_self_of_not (p : Char → Bool) (cs : List Char)
    (h : ∀ c ∈ cs, p c = false) : cs.dropWhile p = cs := by
  cases cs with
  | nil => rfl
  | cons c rest => simp [List.dropWhile, h c (by simp)]

theorem stripWs_eq_self (cs : List Char) (h : ∀ c ∈ cs, c.isWhitespace = false) :
    stripWs cs = cs := by
  unfold stripWs
  rw [dropWhile_eq_self_of_not _ _ h,
      dropWhile_eq_self_of_not _ _ (fun c hc => h c (List.mem_reverse.mp hc)),
      List.reverse_reverse]

theorem underscoresBetween_of (cs : List Char) (h : ∀ c ∈ cs, c ≠ '_') :
    underscoresBetween cs = true := by
  induction cs with
  | nil => rfl
  | cons c rest ih =>
    have hc : c ≠ '_' := h c (by simp)
    simpa [underscoresBetween, hc] using ih (fun x hx => h x (by simp [hx]))

theorem filter_no_us (cs : List Char) (h : ∀ c ∈ cs, c ≠ '_') :
    cs.filter (fun a => a ≠ '_') = cs := by
  rw [List.filter_eq_self]
  intro a ha
  simpa using h a ha

theorem GoodHex.no_us {cs : List Char} (hg : GoodHex cs) : ∀ c ∈ cs, c ≠ '_' := by
  intro c hc
  obtain ⟨d, hd, rfl⟩ := hg c hc
  exact (hexDigitChar_facts d hd).2.2.1

theorem GoodHex.no_ws {cs : List Char} (hg : GoodHex cs) :
    ∀ c ∈ cs, c.isWhitespace = false := by
  intro c hc
  obtain ⟨d, hd, rfl⟩ := hg c hc
  exact (hexDigitChar_facts d hd).2.1

theorem parseDigits_of_good (A : List Char) (hA : GoodHex A) (hne : A ≠ []) :
    parseDigits 16 A = digitsToNat 16 0 A := by
  cases A with
  | nil => cases hne rfl
  | cons c rest =>
    have h_ne : c ≠ '_' := hA.no_us c (by simp)
    have hub := underscoresBetween_of _ hA.no_us
    have hf := filter_no_us _ hA.no_us
    simp only [parseDigits, if_neg h_ne, hub, if_true, hf]

theorem hexRepCore_append (fuel : Nat) : ∀ n acc,
    hexRepCore fuel n acc = hexRepCore fuel n [] ++ acc := by
  induction fuel with
  | zero => intro n acc; rfl
  | succ fuel ih =>
    intro n acc
    by_cases h : n = 0
    · simp [hexRepCore, h]
    · simp only [hexRepCore, if_neg h]
      rw [ih (n / 16) (hexDigitChar (n % 16) :: acc), ih (n / 16) [hexDigitChar (n % 16)]]
      simp

theorem hexRepCore_good (fuel : Nat) : ∀ n, GoodHex (hexRepCore fuel n []) := by
  induction fuel with
  | zero => intro n c hc; simp [hexRepCore] at hc
  | succ fuel ih =>
    intro n c hc
    by_cases h : n = 0
    · simp [hexRepCore, h] at hc
    · rw [show hexRepCore (fuel + 1) n [] = hexRepCore fuel (n / 16) [hexDigitChar (n % 16)]
            from by simp [hexRepCore, h],
          hexRepCore_append] at hc
      rcases List.mem_append.mp hc with h1 | h2
      · exact ih _ c h1
      · refine ⟨n % 16, Nat.mod_lt _ (by norm_num), ?_⟩
        simpa using h2

theorem digitsToNat_append (base : Nat) : ∀ (l1 l2 : List Char) (acc : Nat),
    digitsToNat base acc (l1 ++ l2) =
      (digitsToNat base acc l1).bind (fun a => digitsToNat base a l2) := by
  intro l1
  induction l1 with
  | nil => intro l2 acc; rfl
  | cons c rest ih =>
    intro l2 acc
    simp only [List.cons_append, digitsToNat]
    cases digitVal c with
    | none => rfl
    | some d =>
      by_cases hd : d < base
      · simp [hd, ih]
      · simp [hd]

theorem hexRepCore_val (fuel : Nat) : ∀ n, n < fuel →
    digitsToNat 16 0 (hexRepCore fuel n []) = some n := by
  induction fuel with
  | zero => intro n h; exact absurd h (Nat.not_lt_zero n)
  | succ fuel ih =>
    intro n hn
    by_cases h : n = 0
    · simp [hexRepCore, h, digitsToNat]
    · have hrec : n / 16 < fuel :=
        lt_of_lt_of_le (Nat.div_lt_self (Nat.pos_of_ne_zero h) (by norm_num))
          (Nat.lt_succ_iff.mp hn)
      rw [show hexRepCore (fuel + 1) n [] = hexRepCore fuel (n / 16) [hexDigitChar (n % 16)]
            from by simp [hexRepCore, h],
          hexRepCore_append, digitsToNat_append, ih _ hrec]
      have hd := (hexDigitChar_facts (n % 16) (Nat.mod_lt _ (by norm_num))).1
      simp [digitsToNat, hd, Nat.mod_lt n (show 0 < 16 by norm_num)]
      omega

theorem hexDigitsOf_good (n : Nat) : GoodHex (hexDigitsOf n) := by
  unfold hexDigitsOf
  split
  · intro c hc
    simp at hc
    exact ⟨0, by norm_num, by rw [hc]; rfl⟩
  · exact hexRepCore_good _ _

theorem hexDigitsOf_ne_nil (n : Nat) : hexDigitsOf n ≠ [] := by
  unfold hexDigitsOf
  split
  · simp
  · rename_i h
    rw [show hexRepCore (n + 1) n [] = hexRepCore n (n / 16) [hexDigitChar (n % 16)]
          from by simp [hexRepCore, h],
        hexRepCore_append]
    simp

theorem hexDigitsOf_val (n : Nat) : digitsToNat 16 0 (hexDigitsOf n) = some n := by
  unfold hexDigitsOf
  split
  · rename_i h
    rw [h]
    rfl
  · exact hexRepCore_val (n + 1) n (Nat.lt_succ_self n)

theorem data_0x_mk (A : List Char) : ("0x" ++ String.mk A).data = '0' :: 'x' :: A := rfl

theorem data_neg0x_mk (A : List Char) :
    ("-0x" ++ String.mk A).data = '-' :: '0' :: 'x' :: A := rfl

theorem startswith_0x_mk (A : List Char) :
    py_startswith ("0x" ++ String.mk A) "0x" = true := by
  have h : py_startswith ("0x" ++ String.mk A) "0x"
      = List.isPrefixOf ['0', 'x'] ('0' :: 'x' :: A) := rfl
  rw [h]
  simp [List.isPrefixOf]

theorem startswith_0x_neg (A : List Char) :
    py_startswith ("-0x" ++ String.mk A) "0x" = false := by
  have h : py_startswith ("-0x" ++ String.mk A) "0x"
      = List.isPrefixOf ['0', 'x'] ('-' :: '0' :: 'x' :: A) := rfl
  rw [h]
  simp only [List.isPrefixOf, show (('0' : Char) == '-') = false from by decide,
    Bool.false_and]

theorem pyIntCore_hex (A : List Char) (m : Nat) (hA : GoodHex A) (hne : A ≠ [])
    (hval : digitsToNat 16 0 A = some m) :
    pyIntCore 16 ('0' :: 'x' :: A) = some (m : Int) := by
  have h0 : ('0' : Char) ≠ '+' := by decide
  have h1 : ('0' : Char) ≠ '-' := by decide
  simp only [pyIntCore, if_neg h0, if_neg h1]
  have hb : parseBody 16 ('0' :: 'x' :: A) = parseAfterPfx A := by
    simp [parseBody]
  rw [hb]
  cases A with
  | nil => cases hne rfl
  | cons c rest =>
    have hcne : c ≠ '_' := hA.no_us c (by simp)
    have hap : parseAfterPfx (c :: rest) = parseDigits 16 (c :: rest) := by
      simp [parseAfterPfx, hcne]
    rw [hap, parseDigits_of_good _ hA hne, hval]
    rfl

theorem pyInt_hex_of_good (A : List Char) (m : Nat) (hA : GoodHex A) (hne : A ≠ [])
    (hval : digitsToNat 16 0 A = some m) :
    pyInt ("0x" ++ String.mk A) 16 = .ok (m : Int) := by
  unfold pyInt
  rw [data_0x_mk, stripWs_eq_self _ ?ws, pyIntCore_hex A m hA hne hval]
  case ws =>
    intro c hc
    simp only [List.mem_cons] at hc
    rcases hc with rfl | rfl | hc
    · decide
    · decide
    · exact hA.no_ws c hc

theorem pyInt_neg_hex_fails (A : List Char) (hA : GoodHex A) :
    pyInt ("-0x" ++ String.mk A) 10 = .error () := by
  unfold pyInt
  rw [data_neg0x_mk, stripWs_eq_self _ ?ws]
  case ws =>
    intro c hc
    simp only [List.mem_cons] at hc
    rcases hc with rfl | rfl | rfl | hc
    · decide
    · decide
    · decide
    · exact hA.no_ws c hc
  have h2 : ('-' : Char) ≠ '+' := by decide
  simp only [pyIntCore, if_neg h2, if_pos rfl]
  have hb : parseBody 10 ('0' :: 'x' :: A) = parseDigits 10 ('0' :: 'x' :: A) := by
    simp [parseBody]
  rw [hb]
  have hno : ∀ c ∈ '0' :: 'x' :: A, c ≠ '_' := by
    intro c hc
    simp only [List.mem_cons] at hc
    rcases hc with rfl | rfl | hc
    · decide
    · decide
    · exact hA.no_us c hc
  have h0v : digitsToNat 10 0 ('0' :: 'x' :: A) = none := by
    simp [digitsToNat, show digitVal '0' = some 0 from rfl,
      show digitVal 'x' = some 33 from rfl]
  simp only [parseDigits, if_neg (show ('0' : Char) ≠ '_' by decide),
    underscoresBetween_of _ hno, if_true, filter_no_us _ hno, h0v]
  rfl

theorem hex_to_int_int_to_hex_nonneg (x : Int) (hx : 0 ≤ x) :
    hex_to_int (int_to_hex x) = .ok x := by
  have hlt : ¬x < 0 := not_lt.mpr hx
  have hform : int_to_hex x = "0x" ++ String.mk (hexDigitsOf x.toNat) := by
    simp [int_to_hex, hlt]
  rw [hform]
  simp only [hex_to_int, startswith_0x_mk, if_true]
  rw [pyInt_hex_of_good _ x.toNat (hexDigitsOf_good _) (hexDigitsOf_ne_nil _)
      (hexDigitsOf_val _)]
  rw [Int.toNat_of_nonneg hx]

theorem hex_to_int_int_to_hex_neg (x : Int) (hx : x < 0) :
    py_startswith (int_to_hex x) "0x" = false ∧
      hex_to_int (int_to_hex x) = .error () := by
  have hform : int_to_hex x = "-0x" ++ String.mk (hexDigitsOf x.natAbs) := by
    simp [int_to_hex, hx]
  refine ⟨by rw [hform]; exact startswith_0x_neg _, ?_⟩
  rw [hform]
  simp only [hex_to_int, startswith_0x_neg, if_false]
  exact pyInt_neg_hex_fails _ (hexDigitsOf_good _)

theorem runCalls_ids (t : Transport) :
    ∀ (calls : List (String × Option (List Json))) (st : ClientState),
      (runCalls t st calls).map Payload.id = List.range' st.request_id calls.length := by
  intro calls
  induction calls with
  | nil => intro st; rfl
  | cons c rest ih =>
    intro st
    have hp := make_request_parts t st c.1 c.2
    simp only [runCalls, List.map_cons, hp.1, hp.2, ih, List.length_cons, mkPayload]
    rfl

theorem wrapperResult_const (fields : List (String × Json)) (st : ClientState)
    (m : String) (ps : Option (List Json)) :
    getResult (_make_request (fun _ => TransportResult.ok (Json.obj fields)) st m ps).2.1
      = .ok (lookupField fields "result") := by
  rw [make_request_response_of _ _ _ _ _ rfl, getResult_obj]

theorem wrapperResult_nonobj (body : Json) (hobj : body.isObj = false)
    (st : ClientState) (m : String) (ps : Option (List Json)) :
    getResult (_make_request (fun _ => TransportResult.ok body) st m ps).2.1
      = .error () := by
  rw [make_request_response_of _ _ _ _ _ rfl, getResult_nonobj _ hobj]

/-! ## The claims -/

/-- C1: for every transport-level failure of an invoke call (connection
refused, timeout, or non-success HTTP status — all raised by `requests` as a
`RequestException` and caught in `_make_request`), `_make_request` returns an
object whose single key is `error`, mapped to the string
`Request failed: <cause>`.  The embedding of `_make_request` is a total
function, so no fault propagates to the caller. -/
theorem request_failure_shape (t : Transport) (st : ClientState) (method : String)
    (params : Option (List Json)) (cause : String)
    (h : t (mkPayload st method (defaultParams params)) = .err cause) :
    (_make_request t st method params).2.1
      = Json.obj [("error", Json.str ("Request failed: " ++ cause))] := by
  simp [_make_request, h]

/-- Witness for C1: a transport that refuses every connection. -/
theorem request_failure_shape_witness :
    ((fun _ => TransportResult.err "boom") : Transport)
        (mkPayload newClient "eth_blockNumber" (defaultParams none))
      = TransportResult.err "boom" ∧
    (_make_request (fun _ => TransportResult.err "boom") newClient
        "eth_blockNumber" none).2.1
      = Json.obj [("error", Json.str ("Request failed: " ++ "boom"))] :=
  ⟨rfl, request_failure_shape _ newClient "eth_blockNumber" none "boom" rfl⟩

/-- C2: for every sequence of N `_make_request` calls on one freshly
constructed client instance, the `id` fields sent over the wire are exactly
1, 2, …, N in call order, whatever the transport answers (the counter starts
at 1 and is incremented once per call on success and failure alike). -/
theorem request_ids_sequential (t : Transport)
    (calls : List (String × Option (List Json))) :
    (runCalls t newClient calls).map Payload.id = List.range' 1 calls.length :=
  runCalls_ids t calls newClient

/-- C3: when the node's response is a JSON object with an `error` member and
no `result` member, every convenience wrapper returns Python `None`
(`Except.ok none`), not the error detail. -/
theorem wrappers_absent_on_protocol_error (t : Transport)
    (fields : List (String × Json))
    (ht : t = fun _ => TransportResult.ok (Json.obj fields))
    (herr : ∃ v, lookupField fields "error" = some v)
    (hres : lookupField fields "result" = none) :
    (∀ st, (get_block_number t st).1 = .ok none) ∧
    (∀ st a tag, (get_balance t st a tag).1 = .ok none) ∧
    (∀ st bn inc, (get_block_by_number t st bn inc).1 = .ok none) ∧
    (∀ st bh inc, (get_block_by_hash t st bh inc).1 = .ok none) ∧
    (∀ st tx, (get_transaction_by_hash t st tx).1 = .ok none) ∧
    (∀ st tx, (get_transaction_receipt t st tx).1 = .ok none) ∧
    (∀ st co tag, (call_contract t st co tag).1 = .ok none) ∧
    (∀ st rtx, (send_raw_transaction t st rtx).1 = .ok none) ∧
    (∀ st co, (estimate_gas t st co).1 = .ok none) ∧
    (∀ st, (get_gas_price t st).1 = .ok none) ∧
    (∀ st a tag, (get_code t st a tag).1 = .ok none) ∧
    (∀ st a p tag, (get_storage_at t st a p tag).1 = .ok none) ∧
    (∀ st, (get_network_version t st).1 = .ok none) ∧
    (∀ st, (is_listening t st).1 = .ok none) ∧
    (∀ st, (get_peer_count t st).1 = .ok none) ∧
    (∀ st, (get_client_version t st).1 = .ok none) := by
  subst ht
  refine ⟨?_, ?_, ?_, ?_, ?_, ?_, ?_, ?_, ?_, ?_, ?_, ?_, ?_, ?_, ?_, ?_⟩ <;>
    intros <;>
    simp only [get_block_number, get_balance, get_block_by_number, get_block_by_hash,
      get_transaction_by_hash, get_transaction_receipt, call_contract,
      send_raw_transaction, estimate_gas, get_gas_price, get_code, get_storage_at,
      get_network_version, is_listening, get_peer_count, get_client_version,
      wrapperResult_const, hres]

/-- Witness for C3: a node answering `{"error": "bad"}` to everything. -/
theorem wrappers_absent_on_protocol_error_witness :
    lookupField [("error", Json.str "bad")] "result" = none ∧
    (get_block_number (fun _ => TransportResult.ok
        (Json.obj [("error", Json.str "bad")])) newClient).1 = .ok none ∧
    (get_balance (fun _ => TransportResult.ok
        (Json.obj [("error", Json.str "bad")])) newClient "0xabc" "latest").1
      = .ok none :=
  ⟨rfl,
   (wrappers_absent_on_protocol_error
     (fun _ => TransportResult.ok (Json.obj [("error", Json.str "bad")]))
     [("error", Json.str "bad")] rfl ⟨Json.str "bad", rfl⟩ rfl).1 newClient,
   (wrappers_absent_on_protocol_error
     (fun _ => TransportResult.ok (Json.obj [("error", Json.str "bad")]))
     [("error", Json.str "bad")] rfl ⟨Json.str "bad", rfl⟩ rfl).2.1
     newClient "0xabc" "latest"⟩

/-- C4: `hex_to_int` parses its input in base 16 exactly when the string
starts with `0x`, and in base 10 otherwise; `hex_to_int "0x10" = 16` and
`hex_to_int "10" = 10`. -/
theorem hex_to_int_base_dispatch :
    (∀ s : String, py_startswith s "0x" = true → hex_to_int s = pyInt s 16) ∧
    (∀ s : String, py_startswith s "0x" = false → hex_to_int s = pyInt s 10) ∧
    hex_to_int "0x10" = .ok 16 ∧ hex_to_int "10" = .ok 10 := by
  refine ⟨fun s hs => ?_, fun s hs => ?_, by rfl, by rfl⟩
  · simp [hex_to_int, hs]
  · simp [hex_to_int, hs]

/-- Witness for C4 at a prefixed and an unprefixed string. -/
theorem hex_to_int_base_dispatch_witness :
    py_startswith "0xff" "0x" = true ∧ hex_to_int "0xff" = pyInt "0xff" 16 ∧
    py_startswith "255" "0x" = false ∧ hex_to_int "255" = pyInt "255" 10 :=
  ⟨by decide, hex_to_int_base_dispatch.1 "0xff" (by decide),
   by decide, hex_to_int_base_dispatch.2.1 "255" (by decide)⟩

/-- C5: for every non-negative integer x, `hex_to_int (int_to_hex x) = x`,
and `int_to_hex 16 = "0x10"`. -/
theorem int_to_hex_roundtrip :
    (∀ x : Int, 0 ≤ x → hex_to_int (int_to_hex x) = .ok x) ∧
    int_to_hex 16 = "0x10" :=
  ⟨fun x hx => hex_to_int_int_to_hex_nonneg x hx, by rfl⟩

/-- Witness for C5 at x = 1234. -/
theorem int_to_hex_roundtrip_witness :
    (0 : Int) ≤ 1234 ∧ hex_to_int (int_to_hex 1234) = .ok 1234 :=
  ⟨by norm_num, int_to_hex_roundtrip.1 1234 (by norm_num)⟩

/-- C6: every convenience wrapper is a pure pass-through: it fixes the
method string, forwards its arguments positionally into `params` in the
specified order, and extracts `result` from the response; moreover an
omitted `params` is sent as the empty list, `block_tag` defaults to the
literal string `"latest"`, and `include_transactions` defaults to `false`
(the default-argument equations below are stated at the defaulted call
sites). -/
theorem wrappers_pass_through :
    (∀ (t : Transport) st m ps, (_make_request t st m ps).1
      = ⟨"2.0", m, defaultParams ps, st.request_id⟩) ∧
    defaultParams none = [] ∧
    (∀ (t : Transport) st, get_block_number t st
      = (getResult (_make_request t st "eth_blockNumber" none).2.1,
         (_make_request t st "eth_blockNumber" none).2.2)) ∧
    (∀ (t : Transport) st a tag, get_balance t st a tag
      = (getResult (_make_request t st "eth_getBalance"
           (some [Json.str a, Json.str tag])).2.1,
         (_make_request t st "eth_getBalance"
           (some [Json.str a, Json.str tag])).2.2)) ∧
    (∀ (t : Transport) st bn inc, get_block_by_number t st bn inc
      = (getResult (_make_request t st "eth_getBlockByNumber"
           (some [Json.str bn, Json.bool inc])).2.1,
         (_make_request t st "eth_getBlockByNumber"
           (some [Json.str bn, Json.bool inc])).2.2)) ∧
    (∀ (t : Transport) st bh inc, get_block_by_hash t st bh inc
      = (getResult (_make_request t st "eth_getBlockByHash"
           (some [Json.str bh, Json.bool inc])).2.1,
         (_make_request t st "eth_getBlockByHash"
           (some [Json.str bh, Json.bool inc])).2.2)) ∧
    (∀ (t : Transport) st tx, get_transaction_by_hash t st tx
      = (getResult (_make_request t st "eth_getTransactionByHash"
           (some [Json.str tx])).2.1,
         (_make_request t st "eth_getTransactionByHash"
           (some [Json.str tx])).2.2)) ∧
    (∀ (t : Transport) st tx, get_transaction_receipt t st tx
      = (getResult (_make_request t st "eth_getTransactionReceipt"
           (some [Json.str tx])).2.1,
         (_make_request t st "eth_getTransactionReceipt"
           (some [Json.str tx])).2.2)) ∧
    (∀ (t : Transport) st co tag, call_contract t st co tag
      = (getResult (_make_request t st "eth_call"
           (some [co, Json.str tag])).2.1,
         (_make_request t st "eth_call" (some [co, Json.str tag])).2.2)) ∧
    (∀ (t : Transport) st rtx, send_raw_transaction t st rtx
      = (getResult (_make_request t st "eth_sendRawTransaction"
           (some [Json.str rtx])).2.1,
         (_make_request t st "eth_sendRawTransaction"
           (some [Json.str rtx])).2.2)) ∧
    (∀ (t : Transport) st co, estimate_gas t st co
      = (getResult (_make_request t st "eth_estimateGas" (some [co])).2.1,
         (_make_request t st "eth_estimateGas" (some [co])).2.2)) ∧
    (∀ (t : Transport) st, get_gas_price t st
      = (getResult (_make_request t st "eth_gasPrice" none).2.1,
         (_make_request t st "eth_gasPrice" none).2.2)) ∧
    (∀ (t : Transport) st a tag, get_code t st a tag
      = (getResult (_make_request t st "eth_getCode"
           (some [Json.str a, Json.str tag])).2.1,
         (_make_request t st "eth_getCode"
           (some [Json.str a, Json.str tag])).2.2)) ∧
    (∀ (t : Transport) st a p tag, get_storage_at t st a p tag
      = (getResult (_make_request t st "eth_getStorageAt"
           (some [Json.str a, Json.str p, Json.str tag])).2.1,
         (_make_request t st "eth_getStorageAt"
           (some [Json.str a, Json.str p, Json.str tag])).2.2)) ∧
    (∀ (t : Transport) st, get_network_version t st
      = (getResult (_make_request t st "net_version" none).2.1,
         (_make_request t st "net_version" none).2.2)) ∧
    (∀ (t : Transport) st, is_listening t st
      = (getResult (_make_request t st "net_listening" none).2.1,
         (_make_request t st "net_listening" none).2.2)) ∧
    (∀ (t : Transport) st, get_peer_count t st
      = (getResult (_make_request t st "net_peerCount" none).2.1,
         (_make_request t st "net_peerCount" none).2.2)) ∧
    (∀ (t : Transport) st, get_client_version t st
      = (getResult (_make_request t st "web3_clientVersion" none).2.1,
         (_make_request t st "web3_clientVersion" none).2.2)) ∧
    (∀ (t : Transport) st a, get_balance t st a = get_balance t st a "latest") ∧
    (∀ (t : Transport) st bn, get_block_by_number t st bn
      = get_block_by_number t st bn false) ∧
    (∀ (t : Transport) st bh, get_block_by_hash t st bh
      = get_block_by_hash t st bh false) ∧
    (∀ (t : Transport) st co, call_contract t st co = call_contract t st co "latest") ∧
    (∀ (t : Transport) st a, get_code t st a = get_code t st a "latest") ∧
    (∀ (t : Transport) st a p, get_storage_at t st a p
      = get_storage_at t st a p "latest") :=
  by
  refine ⟨fun t st m ps => (make_request_parts t st m ps).1, rfl, ?_, ?_, ?_, ?_,
      ?_, ?_, ?_, ?_, ?_, ?_, ?_, ?_, ?_, ?_, ?_, ?_, ?_, ?_, ?_, ?_, ?_, ?_⟩ <;>
    intros <;> rfl

/-- C7 counterexample: at the negative input -1 the result of `int_to_hex`
is `"-0x1"`, which is not prefixed with `0x`; so "for every integer value,
int_to_hex returns a hex string prefixed with 0x" is false as stated. -/
theorem int_to_hex_not_0x_at_neg_one :
    ¬py_startswith (int_to_hex (-1)) "0x" = true := by decide

/-- C7 (amended): for every non-negative integer value, `int_to_hex` returns
a `0x`-prefixed string whose remaining characters are lowercase hexadecimal
digits (negative values instead yield a `-`-signed form). -/
theorem int_to_hex_lowercase_hex (x : Int) (hx : 0 ≤ x) :
    py_startswith (int_to_hex x) "0x" = true ∧
    ∀ c ∈ (int_to_hex x).data.drop 2, isLowerHexDigit c = true := by
  have hlt : ¬x < 0 := not_lt.mpr hx
  have hform : int_to_hex x = "0x" ++ String.mk (hexDigitsOf x.toNat) := by
    simp [int_to_hex, hlt]
  rw [hform]
  refine ⟨startswith_0x_mk _, ?_⟩
  rw [data_0x_mk]
  have hdrop : ('0' :: 'x' :: hexDigitsOf x.toNat).drop 2 = hexDigitsOf x.toNat := rfl
  rw [hdrop]
  intro c hc
  obtain ⟨d, hd, rfl⟩ := hexDigitsOf_good x.toNat c hc
  exact (hexDigitChar_facts d hd).2.2.2

/-- Witness for the amended C7 at x = 255. -/
theorem int_to_hex_lowercase_hex_witness :
    (0 : Int) ≤ 255 ∧ py_startswith (int_to_hex 255) "0x" = true :=
  ⟨by norm_num, (int_to_hex_lowercase_hex 255 (by norm_num)).1⟩

/-- C8: `wei_to_ether` converts a hex wei quantity to ether by dividing the
parsed integer by 10^18, and `wei_to_ether "0xde0b6b3a7640000" = 1` (the
Python float division is exact at this input, so the rational model agrees
with IEEE arithmetic there). -/
theorem wei_to_ether_div :
    (∀ s, wei_to_ether s = (hex_to_int s).map (fun n => (n : ℚ) / 10 ^ 18)) ∧
    wei_to_ether "0xde0b6b3a7640000" = .ok 1 := by
  refine ⟨fun s => rfl, ?_⟩
  have h : hex_to_int "0xde0b6b3a7640000" = .ok ((10 : ℤ) ^ 18) := by rfl
  rw [wei_to_ether, h]
  norm_num [Except.map]

/-- C9: for every negative integer x, `int_to_hex` yields the signed form
`-0x…`, which does not start with `0x`, so `hex_to_int` attempts a base-10
parse and raises `ValueError` (the `.error` case) instead of returning x. -/
theorem negative_roundtrip_fails (x : Int) (hx : x < 0) :
    int_to_hex x = "-0x" ++ String.mk (hexDigitsOf x.natAbs) ∧
    py_startswith (int_to_hex x) "0x" = false ∧
    hex_to_int (int_to_hex x) = .error () := by
  have h := hex_to_int_int_to_hex_neg x hx
  exact ⟨by simp [int_to_hex, hx], h.1, h.2⟩

/-- Witness for C9 at x = -2. -/
theorem negative_roundtrip_fails_witness :
    (-2 : Int) < 0 ∧ hex_to_int (int_to_hex (-2)) = .error () :=
  ⟨by norm_num, (negative_roundtrip_fails (-2) (by norm_num)).2.2⟩

/-- C10: when a transport-level success carries a body whose parsed JSON
value is not an object (e.g. `null` or an array), every convenience wrapper
raises an uncaught `AttributeError` (the `.error` case of the embedding)
instead of yielding an absent value. -/
theorem wrappers_raise_on_nonobject (t : Transport) (body : Json)
    (ht : t = fun _ => TransportResult.ok body)
    (hobj : body.isObj = false) :
    (∀ st, (get_block_number t st).1 = .error ()) ∧
    (∀ st a tag, (get_balance t st a tag).1 = .error ()) ∧
    (∀ st bn inc, (get_block_by_number t st bn inc).1 = .error ()) ∧
    (∀ st bh inc, (get_block_by_hash t st bh inc).1 = .error ()) ∧
    (∀ st tx, (get_transaction_by_hash t st tx).1 = .error ()) ∧
    (∀ st tx, (get_transaction_receipt t st tx).1 = .error ()) ∧
    (∀ st co tag, (call_contract t st co tag).1 = .error ()) ∧
    (∀ st rtx, (send_raw_transaction t st rtx).1 = .error ()) ∧
    (∀ st co, (estimate_gas t st co).1 = .error ()) ∧
    (∀ st, (get_gas_price t st).1 = .error ()) ∧
    (∀ st a tag, (get_code t st a tag).1 = .error ()) ∧
    (∀ st a p tag, (get_storage_at t st a p tag).1 = .error ()) ∧
    (∀ st, (get_network_version t st).1 = .error ()) ∧
    (∀ st, (is_listening t st).1 = .error ()) ∧
    (∀ st, (get_peer_count t st).1 = .error ()) ∧
    (∀ st, (get_client_version t st).1 = .error ()) := by
  subst ht
  refine ⟨?_, ?_, ?_, ?_, ?_, ?_, ?_, ?_, ?_, ?_, ?_, ?_, ?_, ?_, ?_, ?_⟩ <;>
    intros <;>
    simp only [get_block_number, get_balance, get_block_by_number, get_block_by_hash,
      get_transaction_by_hash, get_transaction_receipt, call_contract,
      send_raw_transaction, estimate_gas, get_gas_price, get_code, get_storage_at,
      get_network_version, is_listening, get_peer_count, get_client_version,
      wrapperResult_nonobj _ hobj]

/-- Witness for C10: a node whose body parses to `null`, and one whose body
parses to an empty array. -/
theorem wrappers_raise_on_nonobject_witness :
    Json.isObj Json.null = false ∧
    (get_block_number (fun _ => TransportResult.ok Json.null) newClient).1
      = .error () ∧
    (get_balance (fun _ => TransportResult.ok (Json.arr [])) newClient
        "0xabc" "latest").1 = .error () :=
  ⟨rfl,
   (wrappers_raise_on_nonobject _ Json.null rfl rfl).1 newClient,
   (wrappers_raise_on_nonobject _ (Json.arr []) rfl rfl).2.1
     newClient "0xabc" "latest"⟩

end DeoWeb3
